import Mathlib

/-!
Shallow embedding of the role-based task tracker's identity/session
subsystem (`app/services/user_service.py`, `app/utils/auth_utils.py`)
and task workflow subsystem (`app/services/task_service.py`), together
with theorems settling the specification claims about them.

Modelling conventions:
* timestamps are natural numbers counting seconds (2 hours = 7200,
  24 hours = 86400, 10 minutes = 600);
* the MongoDB collections are Lean lists kept in insertion order;
  `find_one` is `List.find?`, `update_one` updates the first match,
  `find(...).sort(...).limit(n)` is filter, then sort, then take;
* bcrypt hashing is modelled by an injective tagging function, so that
  `verify_password p h` holds exactly when `h` is the hash of `p`;
* BSON values of different types never compare equal, which matters
  because the code stores `user_id` sometimes as `str(ObjectId)` and
  sometimes as a raw `ObjectId`; the type `BsonId` keeps them apart.
-/

namespace RoleTaskTracker

/-- Update the first element of a list satisfying `p` (the semantics of
MongoDB `update_one`: at most one document is modified). -/
def updateFirst (p : α → Bool) (f : α → α) : List α → List α
  | [] => []
  | a :: l => if p a then f a :: l else a :: updateFirst p f l

/-- Insert into a list kept sorted by `key` in descending order. -/
def insertByKeyDesc (key : α → Int) (a : α) : List α → List α
  | [] => [a]
  | b :: l => if key b ≤ key a then a :: b :: l else b :: insertByKeyDesc key a l

/-- Sort a list by `key` in descending order (insertion sort), the model of
`find(...).sort(field, -1)`. -/
def sortByKeyDesc (key : α → Int) : List α → List α
  | [] => []
  | a :: l => insertByKeyDesc key a (sortByKeyDesc key l)

theorem mem_insertByKeyDesc (key : α → Int) (a x : α) (l : List α) :
    x ∈ insertByKeyDesc key a l ↔ x = a ∨ x ∈ l := by
  induction l with
  | nil => simp [insertByKeyDesc]
  | cons b l ih =>
    by_cases h : key b ≤ key a
    · simp [insertByKeyDesc, h, ih]
    · simp [insertByKeyDesc, h, ih]
      tauto

theorem mem_sortByKeyDesc (key : α → Int) (x : α) (l : List α) :
    x ∈ sortByKeyDesc key l ↔ x ∈ l := by
  induction l with
  | nil => simp [sortByKeyDesc]
  | cons a l ih => simp [sortByKeyDesc, mem_insertByKeyDesc, ih]

theorem length_insertByKeyDesc (key : α → Int) (a : α) (l : List α) :
    (insertByKeyDesc key a l).length = l.length + 1 := by
  induction l with
  | nil => rfl
  | cons b l ih =>
    by_cases h : key b ≤ key a <;> simp [insertByKeyDesc, h, ih]

theorem length_sortByKeyDesc (key : α → Int) (l : List α) :
    (sortByKeyDesc key l).length = l.length := by
  induction l with
  | nil => rfl
  | cons a l ih => simp [sortByKeyDesc, length_insertByKeyDesc, ih]

theorem find?_updateFirst (p : α → Bool) (f : α → α) (l : List α)
    (hf : ∀ a, p a = true → p (f a) = true) :
    (updateFirst p f l).find? p = (l.find? p).map f := by
  induction l with
  | nil => rfl
  | cons a l ih =>
    cases h : p a with
    | true => simp [updateFirst, h, List.find?, hf a h]
    | false => simp [updateFirst, h, List.find?, ih]

-- ---------------------------------------------------------------------------
-- BSON values and records of the user service
-- ---------------------------------------------------------------------------

/-- A user id as it can appear in a stored document: either the raw
`ObjectId` or its string form `str(ObjectId)`.  BSON equality never
identifies values of the two types, so `oid n ≠ str n`. -/
inductive BsonId where
  | oid (n : Nat)
  | str (n : Nat)
deriving DecidableEq, Repr

/-- A document of `users_collection`. -/
structure UserRec where
  uid : Nat
  email : String
  password : String
  role : String
  locked_until : Option Nat := none
  password_changed_at : Option Nat := none
deriving DecidableEq, Repr

/-- A document of `login_attempts_collection`.  Failed attempts carry a
`timestamp` and (for known users) `user_id = str(ObjectId)`; successful
attempts carry `login_time` instead of `timestamp` and a raw `ObjectId`
`user_id`, exactly as the inserts in `login_user` write them. -/
structure LoginAttempt where
  user_id : Option BsonId := none
  email : Option String := none
  timestamp : Option Nat := none
  login_time : Option Nat := none
  success : Bool
  token : Option String := none
  expiry_time : Option Nat := none
  expired : Option Bool := none
  logout_time : Option Nat := none
deriving DecidableEq, Repr

/-- A document of `password_resets_collection` (`user_id` holds the email,
as `request_password_reset` stores it). -/
structure ResetRec where
  rid : Nat
  user_id : String
  otp : String
  expires_at : Nat
  created_at : Nat := 0
deriving DecidableEq, Repr

/-- The persistent state touched by the user service. -/
structure AuthState where
  users : List UserRec
  attempts : List LoginAttempt
  resets : List ResetRec
deriving DecidableEq, Repr

/-- The `{"success": ..., "message": ...}` dictionaries returned by the
OTP and password-change operations. -/
structure PwResponse where
  success : Bool
  message : String
deriving DecidableEq, Repr

/-- The payload of a successful login response. -/
structure LoginData where
  token : String
  id : Nat
  email : String
  role : String
deriving DecidableEq, Repr

/-- The dictionary returned by `login_user`. -/
structure LoginResponse where
  success : Bool
  message : String
  action : Option String := none
  data : Option LoginData := none
deriving DecidableEq, Repr

-- ---------------------------------------------------------------------------
-- auth_utils helpers
-- ---------------------------------------------------------------------------

/-- bcrypt hashing, modelled as an injective tag. -/
def hash_password (p : String) : String := "bcrypt$" ++ p

/-- bcrypt verification: succeeds exactly when the stored hash is the hash
of the supplied plaintext. -/
def verify_password (plain hashed : String) : Bool := hash_password plain == hashed

/-- `create_jwt_token`: the token is a function of user id and role (the
claims it carries); its exact encoding is irrelevant to the claims. -/
def create_jwt_token (uid : Nat) (role : String) : String :=
  "jwt." ++ toString uid ++ "." ++ role

/-- `validate_password_strength` from `auth_utils.py`: length, uppercase,
lowercase, digit and special-character checks, each with its message.
Character classes are the ASCII ones the regexes use on these inputs. -/
def validate_password_strength (p : String) : Bool × String :=
  if p.length < 8 then
    (false, "Password must be at least 8 characters long.")
  else if !(p.toList.any fun c => 'A' ≤ c && c ≤ 'Z') then
    (false, "Password must contain at least one uppercase letter.")
  else if !(p.toList.any fun c => 'a' ≤ c && c ≤ 'z') then
    (false, "Password must contain at least one lowercase letter.")
  else if !(p.toList.any fun c => '0' ≤ c && c ≤ '9') then
    (false, "Password must contain at least one digit.")
  else if !(p.toList.any fun c => "!@#$%^&*(),.?\":\x7b\x7d|<>".toList.contains c) then
    (false, "Password must contain at least one special character.")
  else
    (true, "")

/-- Python truthiness of a two-element tuple: a non-empty tuple is always
truthy, whatever it contains.  `register_user` evaluates
`not validate_password_strength(...)`, i.e. `!(pyTruthyPair ...)`. -/
def pyTruthyPair (_ : Bool × String) : Bool := true

/-- `get_user_by_email`: `find_one({"email": email})`. -/
def get_user_by_email (st : AuthState) (email : String) : Option UserRec :=
  st.users.find? (fun u => u.email == email)

/-- `otp_expiry_time`: 10 minutes from now. -/
def otp_expiry_time (now : Nat) : Nat := now + 600

-- ---------------------------------------------------------------------------
-- register_user
-- ---------------------------------------------------------------------------

/-- `register_user`: duplicate-email check, then the weak-password check
written as `if not validate_password_strength(password)` — the call
returns a 2-tuple, so the condition is Python-falsy on every input and
the rejection branch is unreachable. -/
def register_user (email password : String) (role : String) (st : AuthState) :
    (Bool × String) × AuthState :=
  match get_user_by_email st email with
  | some _ => ((false, "User already exists with this email."), st)
  | none =>
    if !(pyTruthyPair (validate_password_strength password)) then
      ((false, "Password does not meet the required strength."), st)
    else
      let hashed := hash_password password
      let newUid := st.users.length + 1
      (((true, "User registered successfully.")),
        { st with users := st.users ++
            [{ uid := newUid, email := email, password := hashed, role := role }] })

-- ---------------------------------------------------------------------------
-- login_user
-- ---------------------------------------------------------------------------

/-- The lockout window query: `find({"user_id": str(_id)})`, sorted by
`timestamp` descending, limited to 5.  A document without a `timestamp`
field sorts after all timestamped ones under a descending sort. -/
def lastAttempts (attempts : List LoginAttempt) (uid : Nat) : List LoginAttempt :=
  ((sortByKeyDesc (fun a => (a.timestamp.map Int.ofNat).getD (-1))
      (attempts.filter (fun a => a.user_id == some (BsonId.str uid)))).take 5)

/-- Walk the fetched attempts from most recent backward, counting
consecutive failures and stopping at the first success. -/
def consecutive_failures (l : List LoginAttempt) : Nat :=
  (l.takeWhile (fun a => !a.success)).length

/-- Set the `locked_until` field of the (first) user with the given id. -/
def setLockedUntil (users : List UserRec) (uid : Nat) (v : Option Nat) : List UserRec :=
  updateFirst (fun u => u.uid == uid) (fun u => { u with locked_until := v }) users

/-- `login_user` from the point after the `locked_until` branch: lockout
check over the last five attempts, then password verification, then the
success path. -/
def loginAfterLockCheck (password : String) (now : Nat) (st : AuthState)
    (user : UserRec) : LoginResponse × AuthState :=
  if 5 ≤ consecutive_failures (lastAttempts st.attempts user.uid) then
    ({ success := false,
       message := "Account locked due to 5 consecutive failed attempts. Please reset your password.",
       action := some "reset_password" },
     { st with users := setLockedUntil st.users user.uid (some (now + 7200)) })
  else if !(verify_password password user.password) then
    ({ success := false, message := "Invalid credentials" },
     { st with attempts := st.attempts ++
         [{ user_id := some (BsonId.str user.uid), timestamp := some now, success := false }] })
  else
    let token := create_jwt_token user.uid user.role
    ({ success := true, message := "Login successful",
       data := some { token := token, id := user.uid, email := user.email, role := user.role } },
     { st with attempts := st.attempts ++
         [{ user_id := some (BsonId.oid user.uid), email := some user.email,
            token := some token, login_time := some now,
            expiry_time := some (now + 86400), success := true,
            expired := some false, logout_time := none }] })

/-- `login_user`: unknown-email denial, lock-window denial (or lazy lock
clearing), then `loginAfterLockCheck`. -/
def login_user (email password : String) (now : Nat) (st : AuthState) :
    LoginResponse × AuthState :=
  match get_user_by_email st email with
  | none =>
    ({ success := false, message := "Invalid credentials" },
     { st with attempts := st.attempts ++
         [{ email := some email, timestamp := some now, success := false }] })
  | some user =>
    match user.locked_until with
    | some t =>
      if now < t then
        ({ success := false,
           message := "Account locked until " ++ toString t ++ ". Please reset your password.",
           action := some "reset_password" }, st)
      else
        loginAfterLockCheck password now
          { st with users := setLockedUntil st.users user.uid none }
          { user with locked_until := none }
    | none => loginAfterLockCheck password now st user

-- ---------------------------------------------------------------------------
-- OTP recovery
-- ---------------------------------------------------------------------------

/-- The filter of `validate_password_reset_otp`'s `find_one`: matching
email and code with `expires_at >= now`. -/
def otpMatches (email code : String) (now : Nat) (r : ResetRec) : Bool :=
  r.user_id == email && r.otp == code && now ≤ r.expires_at

/-- `delete_one({"_id": ...})`: remove the first record with the given id. -/
def removeById (i : Nat) : List ResetRec → List ResetRec
  | [] => []
  | a :: l => if a.rid == i then l else a :: removeById i l

/-- `cleanup_expired_otps`: `delete_many({"expires_at": {"$lt": now}})`. -/
def cleanup_expired_otps (now : Nat) (resets : List ResetRec) : List ResetRec :=
  resets.filter (fun r => !(r.expires_at < now))

/-- `request_password_reset`: purge expired codes, then insert a fresh
record expiring 10 minutes out.  The generated code and the fresh record
id are parameters (randomness supplied by the environment). -/
def request_password_reset (email otp : String) (now rid : Nat)
    (resets : List ResetRec) : List ResetRec :=
  cleanup_expired_otps now resets ++
    [{ rid := rid, user_id := email, otp := otp,
       expires_at := otp_expiry_time now, created_at := now }]

/-- `validate_password_reset_otp`: find one matching, unexpired record;
fail if none, otherwise delete exactly that record and succeed. -/
def validate_password_reset_otp (email code : String) (now : Nat)
    (resets : List ResetRec) : PwResponse × List ResetRec :=
  match resets.find? (otpMatches email code now) with
  | none => ({ success := false, message := "Invalid or expired OTP" }, resets)
  | some r => ({ success := true, message := "OTP validated" }, removeById r.rid resets)

/-- `change_password`: user lookup, then OTP validation (which deletes the
matched record), then the strength check, then the hash-and-update. -/
def change_password (email otp new_password : String) (now : Nat)
    (st : AuthState) : PwResponse × AuthState :=
  match get_user_by_email st email with
  | none => ({ success := false, message := "User not found" }, st)
  | some user =>
    let otp_check := validate_password_reset_otp email otp now st.resets
    let st1 : AuthState := { st with resets := otp_check.2 }
    if !otp_check.1.success then (otp_check.1, st1)
    else
      let strength := validate_password_strength new_password
      if !strength.1 then ({ success := false, message := strength.2 }, st1)
      else
        let hashed := hash_password new_password
        let users' := updateFirst (fun u => u.uid == user.uid)
          (fun u =>
            { u with
              password := hashed,
              password_changed_at := some now,
              locked_until := none }) st1.users
        ({ success := true, message := "Password changed successfully" },
         { st1 with users := users' })

-- ---------------------------------------------------------------------------
-- Task workflow: records
-- ---------------------------------------------------------------------------

/-- A document of the task collection.  Status fields hold the string
values of the `DevStatus` / `TesterStatus` enums, or `none` when unset. -/
structure Task where
  tid : Nat
  title : String
  description : Option String := none
  priority : String := "medium"
  due_date : Option Nat := none
  project_id : String
  created_by : String
  assigned_to_dev : Option String := none
  assigned_to_tester : Option String := none
  dev_status : Option String := none
  tester_status : Option String := none
  remarks : List String := []
  created_at : Nat := 0
  updated_at : Nat := 0
deriving DecidableEq, Repr

/-- `TaskCreate` payload fields relevant to the service logic. -/
structure TaskCreate where
  title : String
  description : Option String := none
  priority : String := "medium"
  due_date : Option Nat := none
  project_id : String
  created_by : String
  assigned_to_dev : Option String := none
  assigned_to_tester : Option String := none
deriving DecidableEq, Repr

/-- `TaskUpdateAdmin` payload; `none` fields are excluded by
`payload.dict(exclude_none=True)`. -/
structure TaskUpdateAdmin where
  title : Option String := none
  description : Option String := none
  priority : Option String := none
  due_date : Option Nat := none
  assigned_to_dev : Option String := none
  assigned_to_tester : Option String := none
deriving DecidableEq, Repr

/-- `TaskUpdateTester` payload: a tester status plus optional
remarks-replacement. -/
structure TaskUpdateTester where
  tester_status : String
  remarks : Option (List String) := none
deriving DecidableEq, Repr

/-- Filter dictionary accepted by the list endpoint. -/
structure TaskFilter where
  project_id : Option String := none
  assigned_to_dev : Option String := none
  assigned_to_tester : Option String := none
  dev_status : Option String := none
  tester_status : Option String := none
  created_by : Option String := none
deriving DecidableEq, Repr

/-- The exact-match query built by the service and handed to `find`. -/
structure TaskQuery where
  project_id : Option String := none
  assigned_to_dev : Option String := none
  assigned_to_tester : Option String := none
  dev_status : Option String := none
  tester_status : Option String := none
  created_by : Option String := none
deriving DecidableEq, Repr

/-- Errors the task service raises: `ValueError("Task not found")` and
`PermissionError(msg)`. -/
inductive TaskErr where
  | notFound
  | permission (msg : String)
deriving DecidableEq, Repr

/-- Python truthiness of an optional string (`not current.get(field)`):
falsy when absent or empty. -/
def pyStrOptTruthy : Option String → Bool
  | none => false
  | some s => !s.isEmpty

/-- `find_one({"_id": oid})` over the task collection. -/
def findTask (tasks : List Task) (tid : Nat) : Option Task :=
  tasks.find? (fun t => t.tid == tid)

/-- `find_one_and_update({"_id": oid}, {"$set": ...})`, applied as a
whole-record replacement of the first id match. -/
def replaceTask (tasks : List Task) (tid : Nat) (t' : Task) : List Task :=
  updateFirst (fun t => t.tid == tid) (fun _ => t') tasks

-- ---------------------------------------------------------------------------
-- Task workflow: operations
-- ---------------------------------------------------------------------------

/-- `create_task`: statuses initialize to `pending` exactly for the sides
whose assignee field is truthy, remarks start empty. -/
def create_task (tasks : List Task) (td : TaskCreate) (now newId : Nat) :
    Task × List Task :=
  let t : Task :=
    { tid := newId, title := td.title, description := td.description,
      priority := td.priority, due_date := td.due_date,
      project_id := td.project_id, created_by := td.created_by,
      assigned_to_dev := td.assigned_to_dev,
      assigned_to_tester := td.assigned_to_tester,
      dev_status := if pyStrOptTruthy td.assigned_to_dev then some "pending" else none,
      tester_status := if pyStrOptTruthy td.assigned_to_tester then some "pending" else none,
      remarks := [], created_at := now, updated_at := now }
  (t, tasks ++ [t])

/-- `assign_task`: optional developer/tester assignment with the
auto-`pending` rule when the corresponding status is falsy; a call with
both arguments absent returns the current document unchanged.  The
function never consults the user collection. -/
def assign_task (tasks : List Task) (tid : Nat)
    (developer tester : Option String) (now : Nat) :
    Except TaskErr (Task × List Task) :=
  match findTask tasks tid with
  | none => .error .notFound
  | some current =>
    if developer == none && tester == none then
      .ok (current, tasks)
    else
      let t1 :=
        match developer with
        | none => current
        | some d =>
          { current with
            assigned_to_dev := some d,
            dev_status := if pyStrOptTruthy current.dev_status
                          then current.dev_status else some "pending" }
      let t2 :=
        match tester with
        | none => t1
        | some ts =>
          { t1 with
            assigned_to_tester := some ts,
            tester_status := if pyStrOptTruthy current.tester_status
                             then current.tester_status else some "pending" }
      let t3 := { t2 with updated_at := now }
      .ok (t3, replaceTask tasks tid t3)

/-- `update_task_admin`: apply the non-`none` metadata/assignment fields,
with the same auto-`pending` rule; an all-`none` payload is a no-op. -/
def update_task_admin (tasks : List Task) (tid : Nat)
    (p : TaskUpdateAdmin) (now : Nat) : Except TaskErr (Task × List Task) :=
  match findTask tasks tid with
  | none => .error .notFound
  | some current =>
    if p.title == none && p.description == none && p.priority == none &&
       p.due_date == none && p.assigned_to_dev == none &&
       p.assigned_to_tester == none then
      .ok (current, tasks)
    else
      let t1 :=
        { current with
          title := p.title.getD current.title,
          description := match p.description with
                         | none => current.description | some d => some d,
          priority := p.priority.getD current.priority,
          due_date := match p.due_date with
                      | none => current.due_date | some d => some d }
      let t2 :=
        match p.assigned_to_dev with
        | none => t1
        | some d =>
          { t1 with
            assigned_to_dev := some d,
            dev_status := if pyStrOptTruthy current.dev_status
                          then current.dev_status else some "pending" }
      let t3 :=
        match p.assigned_to_tester with
        | none => t2
        | some ts =>
          { t2 with
            assigned_to_tester := some ts,
            tester_status := if pyStrOptTruthy current.tester_status
                             then current.tester_status else some "pending" }
      let t4 := { t3 with updated_at := now }
      .ok (t4, replaceTask tasks tid t4)

/-- `update_tester_status`: assignment check, then the
developer-completed precondition, then the status write (remarks replaced
wholesale when supplied). -/
def update_tester_status (tasks : List Task) (tid : Nat) (user_email : String)
    (p : TaskUpdateTester) (now : Nat) : Except TaskErr (Task × List Task) :=
  match findTask tasks tid with
  | none => .error .notFound
  | some task =>
    if !(task.assigned_to_tester == some user_email) then
      .error (.permission "Task not assigned to this tester")
    else if !(task.dev_status == some "completed") then
      .error (.permission "Developer must complete the task before tester can update status")
    else
      let t1 : Task :=
        { task with
          tester_status := some p.tester_status,
          updated_at := now,
          remarks := p.remarks.getD task.remarks }
      .ok (t1, replaceTask tasks tid t1)

-- ---------------------------------------------------------------------------
-- Task listing
-- ---------------------------------------------------------------------------

/-- `_build_query_from_filters`: copy each truthy filter into the query. -/
def build_query_from_filters (f : TaskFilter) : TaskQuery :=
  { project_id := if pyStrOptTruthy f.project_id then f.project_id else none,
    assigned_to_dev := if pyStrOptTruthy f.assigned_to_dev then f.assigned_to_dev else none,
    assigned_to_tester := if pyStrOptTruthy f.assigned_to_tester then f.assigned_to_tester else none,
    dev_status := if pyStrOptTruthy f.dev_status then f.dev_status else none,
    tester_status := if pyStrOptTruthy f.tester_status then f.tester_status else none,
    created_by := if pyStrOptTruthy f.created_by then f.created_by else none }

/-- One exact-match clause of a query: absent means no constraint. -/
def optMatch (qv fv : Option String) : Bool :=
  match qv with
  | none => true
  | some v => fv == some v

/-- Whether a task document satisfies every clause of a query. -/
def matchesQuery (q : TaskQuery) (t : Task) : Bool :=
  optMatch q.project_id (some t.project_id) &&
  optMatch q.assigned_to_dev t.assigned_to_dev &&
  optMatch q.assigned_to_tester t.assigned_to_tester &&
  optMatch q.dev_status t.dev_status &&
  optMatch q.tester_status t.tester_status &&
  optMatch q.created_by (some t.created_by)

/-- `get_all_tasks`: build the query, overwrite the respective assignee
clause with the caller's email for developer/tester callers, then
`find(q).sort("created_at", -1)` capped at 500 documents. -/
def get_all_tasks (tasks : List Task) (f : TaskFilter) (role email : String) :
    List Task :=
  let q := build_query_from_filters f
  let q := if role == "developer" then { q with assigned_to_dev := some email }
           else if role == "tester" then { q with assigned_to_tester := some email }
           else q
  (sortByKeyDesc (fun t => Int.ofNat t.created_at)
    (tasks.filter (matchesQuery q))).take 500

-- ---------------------------------------------------------------------------
-- Further list lemmas
-- ---------------------------------------------------------------------------

theorem take_eq_self_of_le (l : List α) (n : Nat) (h : l.length ≤ n) :
    l.take n = l := by
  induction l generalizing n with
  | nil => simp
  | cons a l ih =>
    cases n with
    | zero => simp at h
    | succ m => simpa using ih m (by simpa using h)

theorem eq_of_mem_of_length_le_one {l : List α} {a b : α}
    (h : l.length ≤ 1) (ha : a ∈ l) (hb : b ∈ l) : a = b := by
  match l with
  | [] => cases ha
  | [x] =>
    simp at ha hb
    rw [ha, hb]
  | x :: y :: _ => simp at h

theorem mem_of_mem_removeById {i : Nat} {l : List ResetRec} {x : ResetRec}
    (hx : x ∈ removeById i l) : x ∈ l := by
  induction l with
  | nil => simp [removeById] at hx
  | cons a l ih =>
    by_cases h : a.rid == i
    · simp only [removeById, if_pos h] at hx
      exact List.mem_cons_of_mem a hx
    · simp only [removeById, if_neg h] at hx
      rcases List.mem_cons.mp hx with h1 | h1
      · exact h1 ▸ List.mem_cons_self a l
      · exact List.mem_cons_of_mem a (ih h1)

theorem rid_ne_of_mem_removeById {i : Nat} {l : List ResetRec} {x : ResetRec}
    (hnodup : (l.map (fun r => r.rid)).Nodup)
    (hx : x ∈ removeById i l) : x.rid ≠ i := by
  induction l with
  | nil => simp [removeById] at hx
  | cons a l ih =>
    rw [List.map_cons, List.nodup_cons] at hnodup
    by_cases h : a.rid == i
    · simp only [removeById, if_pos h] at hx
      have hai : a.rid = i := by simpa using h
      intro hxi
      exact hnodup.1 (List.mem_map.mpr ⟨x, hx, by rw [hxi, hai]⟩)
    · simp only [removeById, if_neg h] at hx
      rcases List.mem_cons.mp hx with h1 | h1
      · rw [h1]; simpa using h
      · exact ih hnodup.2 h1

/-- After a successful OTP validation deletes its record, no record
matching the same email and code remains (given unique record ids and at
most one stored pairing of this email and code). -/
theorem find?_removeById_none (resets : List ResetRec) (email code : String)
    (now now2 : Nat) (r : ResetRec)
    (hnodup : (resets.map (fun x => x.rid)).Nodup)
    (hone : (resets.filter (fun x => x.user_id == email && x.otp == code)).length ≤ 1)
    (hfind : resets.find? (otpMatches email code now) = some r) :
    (removeById r.rid resets).find? (otpMatches email code now2) = none := by
  rw [List.find?_eq_none]
  intro x hx hmx
  have hxl : x ∈ resets := mem_of_mem_removeById hx
  have hrl : r ∈ resets := List.mem_of_find?_eq_some hfind
  have hmr : otpMatches email code now r = true := List.find?_some hfind
  have hxf : x ∈ resets.filter (fun y => y.user_id == email && y.otp == code) := by
    refine List.mem_filter.mpr ⟨hxl, ?_⟩
    have := hmx
    simp [otpMatches] at this ⊢
    exact ⟨this.1.1, this.1.2⟩
  have hrf : r ∈ resets.filter (fun y => y.user_id == email && y.otp == code) := by
    refine List.mem_filter.mpr ⟨hrl, ?_⟩
    have := hmr
    simp [otpMatches] at this ⊢
    exact ⟨this.1.1, this.1.2⟩
  have hxr : x = r := eq_of_mem_of_length_le_one hone hxf hrf
  exact rid_ne_of_mem_removeById hnodup hx (by rw [hxr])

-- ---------------------------------------------------------------------------
-- Concrete objects used by the claim theorems
-- ---------------------------------------------------------------------------

/-- A registered user whose correct password is `Secret1!`. -/
def demoUser : UserRec :=
  { uid := 1, email := "u@x.com", password := hash_password "Secret1!",
    role := "developer" }

def emptyAuthState : AuthState := { users := [], attempts := [], resets := [] }

def demoState : AuthState := { users := [demoUser], attempts := [], resets := [] }

/-- Run one login for the demo user and keep the resulting state. -/
def loginStep (pw : String) (now : Nat) (st : AuthState) : AuthState :=
  (login_user "u@x.com" pw now st).2

/-- The demo state after four consecutive failed logins (t = 0..3). -/
def fourFailState : AuthState :=
  loginStep "bad" 3 (loginStep "bad" 2 (loginStep "bad" 1 (loginStep "bad" 0 demoState)))

/-- The demo state after five consecutive failed logins (t = 0..4). -/
def fiveFailState : AuthState := loginStep "bad" 4 fourFailState

/-- Four failures, then a successful login at t = 4, then one more
failure at t = 5. -/
def mixedTrailState : AuthState :=
  loginStep "bad" 5 (loginStep "Secret1!" 4 fourFailState)

/-- The `locked_until` field of the (first) user with the given id. -/
def userLockedUntil (st : AuthState) (uid : Nat) : Option (Option Nat) :=
  (st.users.find? (fun u => u.uid == uid)).map (fun u => u.locked_until)

-- ---------------------------------------------------------------------------
-- C1
-- ---------------------------------------------------------------------------

/-- C1 counterexample: after the 5th consecutive bad attempt (t = 4) the
account is NOT yet locked — that request answers the generic "Invalid
credentials" and leaves `locked_until` unset; the lock is only imposed by
the NEXT login call (here at t = 50), and `locked_until` becomes
50 + 7200 = 7250, not 2 hours from the 5th failed attempt (4 + 7200 = 7204). -/
theorem C1_counterexample :
    (login_user "u@x.com" "bad" 4 fourFailState).1.message = "Invalid credentials"
    ∧ userLockedUntil fiveFailState 1 = some none
    ∧ (login_user "u@x.com" "Secret1!" 50 fiveFailState).1.message =
        "Account locked due to 5 consecutive failed attempts. Please reset your password."
    ∧ userLockedUntil (login_user "u@x.com" "Secret1!" 50 fiveFailState).2 1 =
        some (some 7250)
    ∧ (7250 : Nat) ≠ 4 + 7200 := by
  refine ⟨rfl, rfl, rfl, rfl, by decide⟩

/-- C1 (amended): once 5 consecutive failed attempts are recorded, it is
the NEXT login call — whatever password it carries — that sets
`locked_until` to 2 hours from that call's own time and answers the
"account locked" denial without verifying the password; and while
`locked_until` lies in the future every login call answers the
"account locked until ..." denial, again without verifying the password
(password-independence is stated as equality of the full outcome for any
two passwords). -/
theorem C1_lock_on_next_attempt (st : AuthState) (u : UserRec) (now t : Nat)
    (p q : String) (hu : get_user_by_email st u.email = some u) :
    (u.locked_until = none →
      5 ≤ consecutive_failures (lastAttempts st.attempts u.uid) →
      ((login_user u.email p now st).1.message =
          "Account locked due to 5 consecutive failed attempts. Please reset your password."
        ∧ userLockedUntil (login_user u.email p now st).2 u.uid = some (some (now + 7200))
        ∧ login_user u.email p now st = login_user u.email q now st))
    ∧ (u.locked_until = some t → now < t →
      ((login_user u.email p now st).1.message =
          "Account locked until " ++ toString t ++ ". Please reset your password."
        ∧ (login_user u.email p now st).2 = st
        ∧ login_user u.email p now st = login_user u.email q now st)) := by
  constructor
  · intro hl h5
    have hmem : u ∈ st.users := List.mem_of_find?_eq_some hu
    have hfind : ∃ u0, st.users.find? (fun x => x.uid == u.uid) = some u0 := by
      have : (st.users.find? (fun x => x.uid == u.uid)).isSome := by
        rw [List.find?_isSome]
        exact ⟨u, hmem, by simp⟩
      exact Option.isSome_iff_exists.mp this
    rcases hfind with ⟨u0, hu0⟩
    have hresp : login_user u.email p now st = loginAfterLockCheck p now st u := by
      simp [login_user, hu, hl]
    have hresq : login_user u.email q now st = loginAfterLockCheck q now st u := by
      simp [login_user, hu, hl]
    have hlockp : loginAfterLockCheck p now st u =
        ({ success := false,
           message := "Account locked due to 5 consecutive failed attempts. Please reset your password.",
           action := some "reset_password" },
         { st with users := setLockedUntil st.users u.uid (some (now + 7200)) }) := by
      simp [loginAfterLockCheck, if_pos h5]
    have hlockq : loginAfterLockCheck q now st u =
        ({ success := false,
           message := "Account locked due to 5 consecutive failed attempts. Please reset your password.",
           action := some "reset_password" },
         { st with users := setLockedUntil st.users u.uid (some (now + 7200)) }) := by
      simp [loginAfterLockCheck, if_pos h5]
    refine ⟨by rw [hresp, hlockp], ?_, by rw [hresp, hresq, hlockp, hlockq]⟩
    rw [hresp, hlockp]
    have hupd : (setLockedUntil st.users u.uid (some (now + 7200))).find?
        (fun x => x.uid == u.uid) = some { u0 with locked_until := some (now + 7200) } := by
      unfold setLockedUntil
      rw [find?_updateFirst (fun x => x.uid == u.uid)
        (fun x => { x with locked_until := some (now + 7200) }) st.users
        (by intro a ha; simpa using ha), hu0]
      rfl
    simp [userLockedUntil, hupd]
  · intro hl hlt
    refine ⟨?_, ?_, ?_⟩ <;> simp [login_user, hu, hl, if_pos hlt]

/-- Witness for `C1_lock_on_next_attempt` at the concrete five-failure
state. -/
theorem C1_lock_on_next_attempt_witness :
    (login_user "u@x.com" "anything" 50 fiveFailState).1.message =
      "Account locked due to 5 consecutive failed attempts. Please reset your password."
    ∧ userLockedUntil (login_user "u@x.com" "anything" 50 fiveFailState).2 1 =
      some (some 7250) := by
  have h := C1_lock_on_next_attempt fiveFailState demoUser 50 0 "anything" "other" (by rfl)
  have h1 := h.1 rfl (by decide)
  exact ⟨h1.1, h1.2.1⟩

-- ---------------------------------------------------------------------------
-- C2
-- ---------------------------------------------------------------------------

/-- C2: the backward walk does stop at a success record, but the lockout
query never returns one: successful logins are inserted with a raw
`ObjectId` `user_id` (and a `login_time` field instead of `timestamp`),
while the window query filters on the string id and sorts by `timestamp`.
Concretely: after 4 failures, a successful login at t = 4 and one more
failure at t = 5, the stored history contains a success, yet the window
the code fetches is all failures, the consecutive-failure count is 5, and
the login at t = 6 with the CORRECT password is denied with the lock
message — the intervening success did not reset the window. -/
theorem C2_success_record_invisible_to_window :
    (login_user "u@x.com" "Secret1!" 4 fourFailState).1.success = true
    ∧ mixedTrailState.attempts.any (fun a => a.success) = true
    ∧ (lastAttempts mixedTrailState.attempts 1).all (fun a => !a.success) = true
    ∧ consecutive_failures (lastAttempts mixedTrailState.attempts 1) = 5
    ∧ (login_user "u@x.com" "Secret1!" 6 mixedTrailState).1.message =
        "Account locked due to 5 consecutive failed attempts. Please reset your password."
    ∧ verify_password "Secret1!" demoUser.password = true := by
  exact ⟨rfl, rfl, rfl, rfl, rfl, rfl⟩

-- ---------------------------------------------------------------------------
-- C3
-- ---------------------------------------------------------------------------

/-- C3: `validate_password_strength` does reject `Weak1` and `Weak1!`
(both for length — each is shorter than 8 characters), but `register_user`
tests the result with `if not validate_password_strength(...)`, and a
2-tuple is always Python-truthy, so registration accepts every weak
password: registering with `Weak1` (and `Weak1!`) succeeds. -/
theorem C3_register_accepts_weak_passwords :
    (validate_password_strength "Weak1").1 = false
    ∧ (validate_password_strength "Weak1!").1 = false
    ∧ pyTruthyPair (validate_password_strength "Weak1") = true
    ∧ (register_user "a@x.com" "Weak1" "developer" emptyAuthState).1 =
        (true, "User registered successfully.")
    ∧ (register_user "a@x.com" "Weak1!" "developer" emptyAuthState).1 =
        (true, "User registered successfully.") := by
  exact ⟨rfl, rfl, rfl, rfl, rfl⟩

-- ---------------------------------------------------------------------------
-- C4
-- ---------------------------------------------------------------------------

def c4Task : Task := { tid := 1, title := "T", project_id := "p", created_by := "m@x.com" }

/-- C4 counterexample: assigning the developer `ghost@x.com` — an email
with no user record anywhere — succeeds and writes the assignment (with
auto-`pending`); no "does not exist" validation failure is ever produced,
because `assign_task` never consults the user collection. -/
theorem C4_counterexample :
    (assign_task [c4Task] 1 (some "ghost@x.com") none 5).map
        (fun r => (r.1.assigned_to_dev, r.1.dev_status)) =
      .ok (some "ghost@x.com", some "pending") := by
  rfl

/-- C4 (amended): `assign_task` performs no existence or role validation
of the referenced developer/tester: whenever the task exists it succeeds,
unconditionally writing exactly the supplied emails (its only failure is
the task-not-found error). -/
theorem C4_assign_never_validates (tasks : List Task) (tid now : Nat)
    (t : Task) (dev tester : Option String)
    (ht : findTask tasks tid = some t) :
    (assign_task tasks tid dev tester now).map (fun r => r.1.assigned_to_dev) =
      .ok (match dev with
           | some d => some d
           | none => t.assigned_to_dev)
    ∧ (assign_task tasks tid dev tester now).map (fun r => r.1.assigned_to_tester) =
      .ok (match tester with
           | some x => some x
           | none => t.assigned_to_tester) := by
  cases dev with
  | none => cases tester with
    | none => exact ⟨by simp [assign_task, ht, Except.map], by simp [assign_task, ht, Except.map]⟩
    | some x => exact ⟨by simp [assign_task, ht, Except.map], by simp [assign_task, ht, Except.map]⟩
  | some d => cases tester with
    | none => exact ⟨by simp [assign_task, ht, Except.map], by simp [assign_task, ht, Except.map]⟩
    | some x => exact ⟨by simp [assign_task, ht, Except.map], by simp [assign_task, ht, Except.map]⟩

/-- Witness for `C4_assign_never_validates` on a concrete one-task store. -/
theorem C4_assign_never_validates_witness :
    (assign_task [c4Task] 1 (some "dev@x.com") (some "qa@x.com") 9).map
        (fun r => r.1.assigned_to_dev) = .ok (some "dev@x.com")
    ∧ (assign_task [c4Task] 1 (some "dev@x.com") (some "qa@x.com") 9).map
        (fun r => r.1.assigned_to_tester) = .ok (some "qa@x.com") := by
  exact C4_assign_never_validates [c4Task] 1 9 c4Task
    (some "dev@x.com") (some "qa@x.com") rfl

-- ---------------------------------------------------------------------------
-- C5
-- ---------------------------------------------------------------------------

def c5Task : Task :=
  { tid := 1, title := "T", project_id := "p", created_by := "m@x.com",
    assigned_to_dev := some "dev@x.com", created_at := 3 }

/-- C5 counterexample: a developer calling list/filter with the filter
`assigned_to_dev = other@x.com` still receives their own task, although
that task does not satisfy the caller-supplied filter — the own-assignment
restriction REPLACES the caller's assignee filter instead of intersecting
with it. -/
theorem C5_counterexample :
    c5Task ∈ get_all_tasks [c5Task] { assigned_to_dev := some "other@x.com" }
        "developer" "dev@x.com"
    ∧ matchesQuery (build_query_from_filters { assigned_to_dev := some "other@x.com" })
        c5Task = false := by
  constructor
  · have h : get_all_tasks [c5Task] { assigned_to_dev := some "other@x.com" }
        "developer" "dev@x.com" = [c5Task] := rfl
    rw [h]
    exact List.mem_singleton.mpr rfl
  · rfl

/-- C5 (amended): for a developer (resp. tester) caller, the returned set
is the tasks matching all caller-supplied filters EXCEPT the respective
assignee filter — which is discarded and replaced — intersected with the
own-assignment restriction. -/
theorem C5_assignee_filter_replaced (tasks : List Task) (f : TaskFilter)
    (email : String) (t : Task) (hlen : tasks.length ≤ 500) :
    (t ∈ get_all_tasks tasks f "developer" email ↔
      t ∈ tasks
        ∧ matchesQuery (build_query_from_filters { f with assigned_to_dev := none }) t = true
        ∧ t.assigned_to_dev = some email)
    ∧ (t ∈ get_all_tasks tasks f "tester" email ↔
      t ∈ tasks
        ∧ matchesQuery (build_query_from_filters { f with assigned_to_tester := none }) t = true
        ∧ t.assigned_to_tester = some email) := by
  have htake : ∀ (q : TaskQuery),
      (sortByKeyDesc (fun x => Int.ofNat x.created_at) (tasks.filter (matchesQuery q))).take 500 =
        sortByKeyDesc (fun x => Int.ofNat x.created_at) (tasks.filter (matchesQuery q)) := by
    intro q
    apply take_eq_self_of_le
    rw [length_sortByKeyDesc]
    exact le_trans (List.length_filter_le _ _) hlen
  constructor
  · rw [show get_all_tasks tasks f "developer" email =
        (sortByKeyDesc (fun x => Int.ofNat x.created_at)
          (tasks.filter (matchesQuery
            { build_query_from_filters f with assigned_to_dev := some email }))).take 500 from rfl]
    rw [htake, mem_sortByKeyDesc, List.mem_filter]
    simp only [matchesQuery, build_query_from_filters, optMatch, Bool.and_eq_true]
    simp [pyStrOptTruthy]
    tauto
  · rw [show get_all_tasks tasks f "tester" email =
        (sortByKeyDesc (fun x => Int.ofNat x.created_at)
          (tasks.filter (matchesQuery
            { build_query_from_filters f with assigned_to_tester := some email }))).take 500 from rfl]
    rw [htake, mem_sortByKeyDesc, List.mem_filter]
    simp only [matchesQuery, build_query_from_filters, optMatch, Bool.and_eq_true]
    simp [pyStrOptTruthy]
    tauto

/-- Witness for `C5_assignee_filter_replaced` on a concrete store. -/
theorem C5_assignee_filter_replaced_witness :
    c5Task ∈ get_all_tasks [c5Task] { assigned_to_dev := some "other@x.com" }
      "developer" "dev@x.com" := by
  have h := C5_assignee_filter_replaced [c5Task]
    { assigned_to_dev := some "other@x.com" } "dev@x.com" c5Task (by decide)
  exact h.1.mpr ⟨List.mem_singleton.mpr rfl, by decide, by decide⟩

-- ---------------------------------------------------------------------------
-- C6
-- ---------------------------------------------------------------------------

/-- C6: for every task and every attempted tester status (and optional
remark replacement), a tester status update by the assigned tester fails
with the developer-must-complete `PermissionError` whenever `dev_status`
is not `completed` — the check sits on the update path itself, so it is
re-evaluated on every call — and that error differs from the error raised
when the caller is not the assigned tester. -/
theorem C6_tester_precondition (tasks : List Task) (tid now : Nat)
    (em : String) (p : TaskUpdateTester) (t : Task)
    (ht : findTask tasks tid = some t) :
    (t.assigned_to_tester = some em → t.dev_status ≠ some "completed" →
      update_tester_status tasks tid em p now =
        .error (.permission "Developer must complete the task before tester can update status"))
    ∧ (t.assigned_to_tester ≠ some em →
      update_tester_status tasks tid em p now =
        .error (.permission "Task not assigned to this tester"))
    ∧ TaskErr.permission "Developer must complete the task before tester can update status" ≠
        TaskErr.permission "Task not assigned to this tester" := by
  refine ⟨?_, ?_, by simp⟩
  · intro ha hd
    simp [update_tester_status, ht, ha, hd]
  · intro ha
    simp [update_tester_status, ht, ha]

/-- Witness for `C6_tester_precondition`: a pending-developer task whose
assigned tester attempts to set `tested`. -/
theorem C6_tester_precondition_witness :
    update_tester_status
        [{ c4Task with assigned_to_tester := some "qa@x.com", dev_status := some "pending" }]
        1 "qa@x.com" { tester_status := "tested" } 9 =
      .error (.permission "Developer must complete the task before tester can update status") := by
  have h := C6_tester_precondition
    [{ c4Task with assigned_to_tester := some "qa@x.com", dev_status := some "pending" }]
    1 9 "qa@x.com" { tester_status := "tested" }
    { c4Task with assigned_to_tester := some "qa@x.com", dev_status := some "pending" } rfl
  exact h.1 rfl (by decide)

-- ---------------------------------------------------------------------------
-- C7
-- ---------------------------------------------------------------------------

/-- C7: OTP validation succeeds exactly when some stored record matches
the email and code with an unexpired timestamp; on success the found
record — exactly that one — is deleted, so (with unique record ids and at
most one stored pairing of this email and code) validating the same code
again fails with "Invalid or expired OTP"; and a record past its
10-minute expiry never matches, whatever the email and code. -/
theorem C7_otp_validation (resets : List ResetRec) (email code : String) (now : Nat)
    (hnodup : (resets.map (fun r => r.rid)).Nodup)
    (hone : (resets.filter (fun r => r.user_id == email && r.otp == code)).length ≤ 1) :
    ((validate_password_reset_otp email code now resets).1.success = true ↔
      ∃ r ∈ resets, otpMatches email code now r = true)
    ∧ (∀ r, resets.find? (otpMatches email code now) = some r →
        (validate_password_reset_otp email code now resets).2 = removeById r.rid resets)
    ∧ ((validate_password_reset_otp email code now resets).1.success = true →
        ∀ now2, (validate_password_reset_otp email code now2
            (validate_password_reset_otp email code now resets).2).1 =
          { success := false, message := "Invalid or expired OTP" })
    ∧ (∀ r ∈ resets, ∀ t0, r.expires_at = otp_expiry_time t0 → otp_expiry_time t0 < now →
        otpMatches email code now r = false) := by
  refine ⟨?_, ?_, ?_, ?_⟩
  · constructor
    · intro h
      cases hf : resets.find? (otpMatches email code now) with
      | none => simp [validate_password_reset_otp, hf] at h
      | some r => exact ⟨r, List.mem_of_find?_eq_some hf, List.find?_some hf⟩
    · rintro ⟨r, hr, hm⟩
      cases hf : resets.find? (otpMatches email code now) with
      | none => exact absurd hm (by simpa using List.find?_eq_none.mp hf r hr)
      | some r2 => simp [validate_password_reset_otp, hf]
  · intro r hf
    simp [validate_password_reset_otp, hf]
  · intro h now2
    cases hf : resets.find? (otpMatches email code now) with
    | none => simp [validate_password_reset_otp, hf] at h
    | some r =>
      have hrm := find?_removeById_none resets email code now now2 r hnodup hone hf
      simp [validate_password_reset_otp, hf, hrm]
  · intro r hr t0 hexp hlt
    have hlt2 : r.expires_at < now := by rw [hexp]; exact hlt
    simp [otpMatches]
    intro h1 h2
    omega

/-- A stored OTP record for the demo user, created at time 0. -/
def otpDemo : ResetRec :=
  { rid := 1, user_id := "u@x.com", otp := "123456", expires_at := otp_expiry_time 0 }

/-- Witness for `C7_otp_validation`: the demo OTP validates once at t=100
and the replay at t=200 fails. -/
theorem C7_otp_validation_witness :
    (validate_password_reset_otp "u@x.com" "123456" 100 [otpDemo]).1.success = true
    ∧ (validate_password_reset_otp "u@x.com" "123456" 200
        (validate_password_reset_otp "u@x.com" "123456" 100 [otpDemo]).2).1 =
      { success := false, message := "Invalid or expired OTP" } := by
  have h := C7_otp_validation [otpDemo] "u@x.com" "123456" 100 (by decide) (by decide)
  have hs : (validate_password_reset_otp "u@x.com" "123456" 100 [otpDemo]).1.success = true :=
    h.1.mpr ⟨otpDemo, List.mem_singleton.mpr rfl, by decide⟩
  exact ⟨hs, h.2.2.1 hs 200⟩

-- ---------------------------------------------------------------------------
-- C8
-- ---------------------------------------------------------------------------

/-- C8: on every path that assigns a developer (create, adminUpdate,
assign), `dev_status` becomes `pending` exactly when it was previously
unset, and an already-set `dev_status` survives any later assign or admin
update unchanged; the same rule holds independently for the tester side. -/
theorem C8_pending_exactly_once (tasks : List Task) (tid now newId : Nat)
    (t : Task) (d s : String) (td : TaskCreate) (pa : TaskUpdateAdmin)
    (ht : findTask tasks tid = some t) (hd : d ≠ "") (hs : s ≠ "") :
    (t.dev_status = none →
      (assign_task tasks tid (some d) none now).map (fun r => r.1.dev_status) =
        .ok (some "pending"))
    ∧ (t.dev_status = some s →
      ∀ dv ts : Option String,
        (assign_task tasks tid dv ts now).map (fun r => r.1.dev_status) = .ok (some s))
    ∧ (t.tester_status = none →
      (assign_task tasks tid none (some d) now).map (fun r => r.1.tester_status) =
        .ok (some "pending"))
    ∧ (t.tester_status = some s →
      ∀ dv ts : Option String,
        (assign_task tasks tid dv ts now).map (fun r => r.1.tester_status) = .ok (some s))
    ∧ (t.dev_status = none → pa.assigned_to_dev = some d →
      (update_task_admin tasks tid pa now).map (fun r => r.1.dev_status) = .ok (some "pending"))
    ∧ (t.dev_status = some s →
      (update_task_admin tasks tid pa now).map (fun r => r.1.dev_status) = .ok (some s))
    ∧ (t.tester_status = none → pa.assigned_to_tester = some d →
      (update_task_admin tasks tid pa now).map (fun r => r.1.tester_status) = .ok (some "pending"))
    ∧ (t.tester_status = some s →
      (update_task_admin tasks tid pa now).map (fun r => r.1.tester_status) = .ok (some s))
    ∧ (td.assigned_to_dev = some d →
      (create_task tasks td now newId).1.dev_status = some "pending")
    ∧ (td.assigned_to_dev = none →
      (create_task tasks td now newId).1.dev_status = none)
    ∧ (td.assigned_to_tester = some d →
      (create_task tasks td now newId).1.tester_status = some "pending")
    ∧ (td.assigned_to_tester = none →
      (create_task tasks td now newId).1.tester_status = none) := by
  have hse : s.isEmpty = false := by
    rw [Bool.eq_false_iff]
    intro hb
    exact hs ((String.isEmpty_iff s).mp hb)
  have hde : d.isEmpty = false := by
    rw [Bool.eq_false_iff]
    intro hb
    exact hd ((String.isEmpty_iff d).mp hb)
  have hps : pyStrOptTruthy (some s) = true := by simp [pyStrOptTruthy, hse]
  have hpd : pyStrOptTruthy (some d) = true := by simp [pyStrOptTruthy, hde]
  have hpn : pyStrOptTruthy none = false := rfl
  refine ⟨?_, ?_, ?_, ?_, ?_, ?_, ?_, ?_, ?_, ?_, ?_, ?_⟩
  · intro h0
    simp [assign_task, ht, h0, hpn, Except.map]
  · intro h0 dv ts
    cases dv <;> cases ts <;> simp [assign_task, ht, h0, hps, Except.map]
  · intro h0
    simp [assign_task, ht, h0, hpn, Except.map]
  · intro h0 dv ts
    cases dv <;> cases ts <;> simp [assign_task, ht, h0, hps, Except.map]
  · intro h0 hpa
    cases h6 : pa.assigned_to_tester <;>
      simp [update_task_admin, ht, h0, hpa, h6, hpn, Except.map]
  · intro h0
    by_cases hno : (pa.title == none && pa.description == none && pa.priority == none &&
        pa.due_date == none && pa.assigned_to_dev == none &&
        pa.assigned_to_tester == none) = true
    · simp [update_task_admin, ht, h0, hno, Except.map]
    · cases h5 : pa.assigned_to_dev <;> cases h6 : pa.assigned_to_tester <;>
        simp [update_task_admin, ht, h0, h5, h6, hps, hno, Except.map] <;>
        (by_cases hc : ((pa.title = none ∧ pa.description = none) ∧ pa.priority = none) ∧
            pa.due_date = none <;> simp [hc, h0])
  · intro h0 hpa
    cases h5 : pa.assigned_to_dev <;>
      simp [update_task_admin, ht, h0, hpa, h5, hpn, Except.map]
  · intro h0
    by_cases hno : (pa.title == none && pa.description == none && pa.priority == none &&
        pa.due_date == none && pa.assigned_to_dev == none &&
        pa.assigned_to_tester == none) = true
    · simp [update_task_admin, ht, h0, hno, Except.map]
    · cases h5 : pa.assigned_to_dev <;> cases h6 : pa.assigned_to_tester <;>
        simp [update_task_admin, ht, h0, h5, h6, hps, hno, Except.map] <;>
        (by_cases hc : ((pa.title = none ∧ pa.description = none) ∧ pa.priority = none) ∧
            pa.due_date = none <;> simp [hc, h0])
  · intro h0
    simp [create_task, h0, hpd]
  · intro h0
    simp [create_task, h0, hpn]
  · intro h0
    simp [create_task, h0, hpd]
  · intro h0
    simp [create_task, h0, hpn]

/-- Witness for `C8_pending_exactly_once`: first assignment on a fresh
task sets `pending`; assigning again on a task whose developer already
worked (`in_progress`) leaves the status alone. -/
theorem C8_pending_exactly_once_witness :
    (assign_task [c4Task] 1 (some "dev@x.com") none 5).map (fun r => r.1.dev_status) =
      .ok (some "pending")
    ∧ (assign_task [{ c4Task with dev_status := some "in_progress" }] 1
        (some "dev2@x.com") none 6).map (fun r => r.1.dev_status) =
      .ok (some "in_progress") := by
  constructor
  · exact (C8_pending_exactly_once [c4Task] 1 5 0 c4Task "dev@x.com" "in_progress"
      { title := "T", project_id := "p", created_by := "m@x.com" }
      { } rfl (by decide) (by decide)).1 rfl
  · exact ((C8_pending_exactly_once [{ c4Task with dev_status := some "in_progress" }] 1 6 0
      { c4Task with dev_status := some "in_progress" } "dev@x.com" "in_progress"
      { title := "T", project_id := "p", created_by := "m@x.com" }
      { } rfl (by decide) (by decide)).2.1 rfl (some "dev2@x.com") none)

-- ---------------------------------------------------------------------------
-- C9
-- ---------------------------------------------------------------------------

/-- C9: the denial for an unknown email and the denial for a known email
with a wrong password (account not locked, fewer than five windowed
failures) are the same full response value — success=false, the generic
"Invalid credentials" message, no action, no data — so the user-visible
response does not reveal whether the email exists. -/
theorem C9_generic_denial (st1 st2 : AuthState) (e1 p1 e2 p2 : String)
    (n1 n2 : Nat) (u : UserRec)
    (h1 : get_user_by_email st1 e1 = none)
    (h2 : get_user_by_email st2 e2 = some u)
    (hl : u.locked_until = none)
    (hcf : consecutive_failures (lastAttempts st2.attempts u.uid) < 5)
    (hp : verify_password p2 u.password = false) :
    (login_user e1 p1 n1 st1).1 = (login_user e2 p2 n2 st2).1
    ∧ (login_user e1 p1 n1 st1).1 =
      { success := false, message := "Invalid credentials", action := none, data := none } := by
  have ha : (login_user e1 p1 n1 st1).1 =
      { success := false, message := "Invalid credentials", action := none, data := none } := by
    simp [login_user, h1]
  have hb : (login_user e2 p2 n2 st2).1 =
      { success := false, message := "Invalid credentials", action := none, data := none } := by
    simp [login_user, h2, hl, loginAfterLockCheck, Nat.not_le.mpr hcf, hp]
  exact ⟨ha.trans hb.symm, ha⟩

/-- Witness for `C9_generic_denial`: unknown email `ghost@x.com` versus
the demo user with a wrong password. -/
theorem C9_generic_denial_witness :
    (login_user "ghost@x.com" "whatever" 0 demoState).1 =
      (login_user "u@x.com" "wrong" 3 demoState).1 := by
  exact (C9_generic_denial demoState demoState "ghost@x.com" "whatever" "u@x.com" "wrong"
    0 3 demoUser rfl rfl rfl (by decide) (by decide)).1

-- ---------------------------------------------------------------------------
-- C10
-- ---------------------------------------------------------------------------

/-- C10: when an existing user calls `change_password` with a valid,
unexpired OTP but a new password failing the strength policy, the OTP
record is deleted BEFORE the strength check reports its failure, so the
call returns the strength reason while the state has lost the OTP, and a
retry with the same OTP — whatever the corrected password — fails with
"Invalid or expired OTP". -/
theorem C10_weak_password_consumes_otp (st : AuthState)
    (email otp newPw : String) (now now2 : Nat) (u : UserRec) (r : ResetRec)
    (hu : get_user_by_email st email = some u)
    (hr : st.resets.find? (otpMatches email otp now) = some r)
    (hweak : (validate_password_strength newPw).1 = false)
    (hnodup : (st.resets.map (fun x => x.rid)).Nodup)
    (hone : (st.resets.filter (fun x => x.user_id == email && x.otp == otp)).length ≤ 1) :
    (change_password email otp newPw now st).1 =
      { success := false, message := (validate_password_strength newPw).2 }
    ∧ (change_password email otp newPw now st).2.resets = removeById r.rid st.resets
    ∧ ∀ pw2, (change_password email otp pw2 now2 (change_password email otp newPw now st).2).1 =
        { success := false, message := "Invalid or expired OTP" } := by
  have hrm := find?_removeById_none st.resets email otp now now2 r hnodup hone hr
  have hu2 : get_user_by_email { st with resets := removeById r.rid st.resets } email =
      some u := hu
  refine ⟨?_, ?_, ?_⟩
  · simp [change_password, hu, validate_password_reset_otp, hr, hweak]
  · simp [change_password, hu, validate_password_reset_otp, hr, hweak]
  · intro pw2
    simp [change_password, hu, hu2, validate_password_reset_otp, hr, hrm, hweak]

/-- Witness for `C10_weak_password_consumes_otp`: the demo user, the demo
OTP, the weak replacement password `weak`, then a retry with a strong
password. -/
theorem C10_weak_password_consumes_otp_witness :
    (change_password "u@x.com" "123456" "weak" 100
        { users := [demoUser], attempts := [], resets := [otpDemo] }).1 =
      { success := false, message := "Password must be at least 8 characters long." }
    ∧ (change_password "u@x.com" "123456" "Strong1!" 200
        (change_password "u@x.com" "123456" "weak" 100
          { users := [demoUser], attempts := [], resets := [otpDemo] }).2).1 =
      { success := false, message := "Invalid or expired OTP" } := by
  have h := C10_weak_password_consumes_otp
    { users := [demoUser], attempts := [], resets := [otpDemo] }
    "u@x.com" "123456" "weak" 100 200 demoUser otpDemo
    rfl rfl (by decide) (by decide) (by decide)
  exact ⟨h.1, h.2.2 "Strong1!"⟩

end RoleTaskTracker
